import Mathlib

/-!
Shallow embedding of `logger.go` (package `logger`), a zap-based logging
facade, together with theorems checking its specification.

The embedding models:
  * zap severity levels with zapcore's numeric ordering;
  * the level-name switch of `LogInit`;
  * the once-guarded initialization (`sync.Once` modelled as a boolean
    flag in an explicit package state);
  * the two sinks (JSON file sink, console sink) composed by
    `zapcore.NewTee`, each filtered by the same minimum level;
  * `mustOpenFile`, which falls back to standard output on open failure
    and reports the failure on an unstructured side channel (`log.Printf`);
  * the lazy accessor `GetLogger` / `ensureLoggerInitialized`;
  * the per-severity emit functions, and `LogWithContext`, which reads the
    package-level instance directly and dispatches on an enumerated set of
    severities.

File opening is nondeterministic at the OS level, so it is modelled by a
boolean parameter `openOk` threaded through initialization. A method call
on the nil `*zap.Logger` is a runtime fault; fallible operations therefore
return `Except String`.
-/

namespace LoggerFacade

/-- Severity levels of zapcore, in zapcore's order
(`Debug = -1 < Info = 0 < Warn = 1 < Error = 2 < DPanic = 3 < Panic = 4 < Fatal = 5`). -/
inductive Level
  | debug
  | info
  | warn
  | error
  | dpanic
  | panic
  | fatal
deriving DecidableEq, Repr

/-- Numeric value of a zapcore level. -/
def Level.toInt : Level → Int
  | .debug => -1
  | .info => 0
  | .warn => 1
  | .error => 2
  | .dpanic => 3
  | .panic => 4
  | .fatal => 5

/-- zapcore's `LevelEnabler` for a minimum level: a record at level `lvl`
is enabled iff `lvl >= minL`. -/
def Level.enabled (minL lvl : Level) : Bool :=
  decide (minL.toInt ≤ lvl.toInt)

/-- Value of a structured field (zap fields carry typed values). -/
inductive FieldValue
  | str (s : String)
  | int (n : Int)
deriving DecidableEq, Repr

/-- Structured log field: a named, typed value. -/
structure Field where
  key : String
  value : FieldValue
deriving DecidableEq, Repr

/-- Write destination of a sink: the log file at a given path, or the
standard output stream. -/
inductive Destination
  | file (path : String)
  | stdout
deriving DecidableEq, Repr

/-- Encoding of a sink: machine-parseable JSON lines, or the colorized
console encoding. -/
inductive Encoding
  | json
  | console
deriving DecidableEq, Repr

/-- Log record as assembled by an emit call: severity, message and the
structured fields, in order. -/
structure Record where
  level : Level
  message : String
  fields : List Field
deriving DecidableEq, Repr

/-- Sink (one `zapcore.Core` of the tee): destination, encoding, and the
minimum-severity filter. -/
structure Sink where
  dest : Destination
  enc : Encoding
  minLevel : Level
deriving DecidableEq, Repr

/-- Whether a sink admits a record at level `lvl` (its core's level check). -/
def Sink.admits (sk : Sink) (lvl : Level) : Bool :=
  Level.enabled sk.minLevel lvl

/-- Logger instance built by `zap.New`: the tee of the file core and the
console core, with caller annotation and stacktraces from `ErrorLevel` up. -/
structure ZapLogger where
  fileSink : Sink
  consoleSink : Sink
  addCaller : Bool
  stacktraceMin : Level
deriving DecidableEq, Repr

/-- One sink write: destination paired with the record written there. -/
abbrev Write := Destination × Record

/-- Emitting a record through the tee core: it is written to each of the
two sinks whose filter admits its level, file core first. -/
def ZapLogger.emit (l : ZapLogger) (r : Record) : List Write :=
  (if l.fileSink.admits r.level then [(l.fileSink.dest, r)] else []) ++
    (if l.consoleSink.admits r.level then [(l.consoleSink.dest, r)] else [])

/-- Package-level state: the `logger` variable (nil = `none`), the
`sync.Once` completion flag, and everything printed on the unstructured
side channel (`log.Printf` / `log.Println`). -/
structure State where
  logger : Option ZapLogger
  onceDone : Bool
  sideChannel : List String
deriving DecidableEq, Repr

/-- State of a freshly started process: nil logger, once not yet fired. -/
def initialState : State :=
  { logger := none, onceDone := false, sideChannel := [] }

/-- Message of a method call on the nil `*zap.Logger`. -/
def nilFault : String :=
  "runtime error: invalid memory address or nil pointer dereference"

/-- Fixed relative path of the log file, hardcoded in `LogInit`. -/
def logFilePath : String := "./user-service.log"

/-- Level-name switch of `LogInit`: case-sensitive match against the five
literals, anything else (the `default` arm) resolves to `InfoLevel`. -/
def parseLevel (level : String) : Level :=
  if level = "debug" then Level.debug
  else if level = "info" then Level.info
  else if level = "warn" then Level.warn
  else if level = "error" then Level.error
  else if level = "fatal" then Level.fatal
  else Level.info

/-- Model of `mustOpenFile`: on success the file destination; on failure it
prints to the side channel and returns the standard-output destination.
No error value is returned either way. -/
def mustOpenFile (path : String) (openOk : Bool) : Destination × List String :=
  if openOk then (Destination.file path, [])
  else (Destination.stdout, ["Failed to open log file"])

/-- Logger construction performed inside `once.Do`: resolve the level,
open the file, build the JSON file core and the console core at that same
level, tee them, and enable caller capture and error-level stacktraces. -/
def buildLogger (openOk : Bool) (level : String) : ZapLogger :=
  let zapLevel := parseLevel level
  { fileSink := { dest := (mustOpenFile logFilePath openOk).1, enc := Encoding.json,
                  minLevel := zapLevel }
    consoleSink := { dest := Destination.stdout, enc := Encoding.console,
                     minLevel := zapLevel }
    addCaller := true
    stacktraceMin := Level.error }

/-- Model of `LogInit`: guarded by `once.Do`, so a no-op when the once has
already fired; otherwise constructs the logger, marks the once done, and
records any open-failure message on the side channel. It returns no error. -/
def LogInit (openOk : Bool) (level : String) (s : State) : State :=
  if s.onceDone then s
  else
    { logger := some (buildLogger openOk level)
      onceDone := true
      sideChannel := s.sideChannel ++ (mustOpenFile logFilePath openOk).2 }

/-- Model of `ensureLoggerInitialized`: when the package-level logger is
nil, prints a notice and runs `LogInit "info"`. -/
def ensureLoggerInitialized (openOk : Bool) (s : State) : State :=
  if s.logger.isNone then
    LogInit openOk "info"
      { s with sideChannel :=
          s.sideChannel ++ ["Logger not initialized. Initializing with default settings."] }
  else s

/-- Model of `GetLogger`: ensures initialization, then returns the
package-level instance together with the updated state. -/
def GetLogger (openOk : Bool) (s : State) : Option ZapLogger × State :=
  let s2 := ensureLoggerInitialized openOk s
  (s2.logger, s2)

/-- Common path of the severity-specific emit functions: obtain the
instance via `GetLogger` and forward message and fields to the matching
severity emitter. A nil instance would be a runtime fault. -/
def emitVia (openOk : Bool) (lvl : Level) (msg : String) (fs : List Field) (s : State) :
    Except String (List Write × State) :=
  match GetLogger openOk s with
  | (some l, s2) => Except.ok (l.emit { level := lvl, message := msg, fields := fs }, s2)
  | (none, _) => Except.error nilFault

/-- Model of the facade's `Debug`. -/
def Debug (openOk : Bool) (msg : String) (fs : List Field) (s : State) :=
  emitVia openOk Level.debug msg fs s

/-- Model of the facade's `Info`. -/
def Info (openOk : Bool) (msg : String) (fs : List Field) (s : State) :=
  emitVia openOk Level.info msg fs s

/-- Model of the facade's `Warn`. -/
def Warn (openOk : Bool) (msg : String) (fs : List Field) (s : State) :=
  emitVia openOk Level.warn msg fs s

/-- Model of the facade's `Error`. -/
def Error (openOk : Bool) (msg : String) (fs : List Field) (s : State) :=
  emitVia openOk Level.error msg fs s

/-- Model of the facade's `Fatal`. -/
def Fatal (openOk : Bool) (msg : String) (fs : List Field) (s : State) :=
  emitVia openOk Level.fatal msg fs s

/-- Model of the facade's `DPanic`. -/
def DPanic (openOk : Bool) (msg : String) (fs : List Field) (s : State) :=
  emitVia openOk Level.dpanic msg fs s

/-- Model of the facade's `Panic`. -/
def Panic (openOk : Bool) (msg : String) (fs : List Field) (s : State) :=
  emitVia openOk Level.panic msg fs s

/-- Fixed contextual field prepended by `LogWithContext`:
`zap.String("module", "product-service")`. -/
def moduleField : Field :=
  { key := "module", value := FieldValue.str "product-service" }

/-- Severities enumerated by the `switch` in `LogWithContext`. The switch
has no `default` arm and no `PanicLevel` case. -/
def hasBranch : Level → Bool
  | .debug => true
  | .info => true
  | .warn => true
  | .error => true
  | .fatal => true
  | .dpanic => true
  | .panic => false

/-- Model of `LogWithContext`: prepends the module field, then dispatches
on the severity. It reads the package-level instance directly (no lazy
accessor): a matched branch calls a method on it, which faults when the
instance is nil; an unmatched severity falls through the switch and does
nothing at all. -/
def LogWithContext (s : State) (lvl : Level) (msg : String) (fs : List Field) :
    Except String (List Write) :=
  let allFields := moduleField :: fs
  if hasBranch lvl then
    match s.logger with
    | none => Except.error nilFault
    | some l => Except.ok (l.emit { level := lvl, message := msg, fields := allFields })
  else Except.ok []

/-- Every write produced by the tee carries exactly the record given to it. -/
theorem emit_record_eq (l : ZapLogger) (r : Record) (w : Write) (hw : w ∈ l.emit r) :
    w.2 = r := by
  unfold ZapLogger.emit at hw
  rcases List.mem_append.1 hw with h | h <;>
    · split at h <;> simp at h
      simp [h]

/-- C1: after initialization resolving the minimum severity `parseLevel name`,
both sinks carry that same threshold, and a record emitted at severity `lvl`
is written to both the file sink and the console sink when
`lvl ≥ parseLevel name`, and to neither sink otherwise. -/
theorem LogInit_filters_both_sinks (openOk : Bool) (name : String) (lvl : Level)
    (msg : String) (fs : List Field) :
    ∃ l, (LogInit openOk name initialState).logger = some l ∧
      l.fileSink.minLevel = parseLevel name ∧
      l.consoleSink.minLevel = parseLevel name ∧
      emitVia openOk lvl msg fs (LogInit openOk name initialState) =
        Except.ok
          ((if Level.enabled (parseLevel name) lvl then
              [(l.fileSink.dest, { level := lvl, message := msg, fields := fs }),
               (l.consoleSink.dest, { level := lvl, message := msg, fields := fs })]
            else []),
           LogInit openOk name initialState) := by
  refine ⟨buildLogger openOk name, ?_, rfl, rfl, ?_⟩
  · simp [LogInit, initialState]
  · simp only [emitVia, GetLogger, ensureLoggerInitialized, LogInit, initialState]
    by_cases h : Level.enabled (parseLevel name) lvl <;>
      simp [ZapLogger.emit, buildLogger, Sink.admits, h]

/-- C2: the level-name resolution maps the five lowercase literals to their
levels and every other string, case-sensitively, to `info`. -/
theorem parseLevel_resolution (s : String)
    (h : s ∉ (["debug", "info", "warn", "error", "fatal"] : List String)) :
    parseLevel "debug" = Level.debug ∧ parseLevel "info" = Level.info ∧
      parseLevel "warn" = Level.warn ∧ parseLevel "error" = Level.error ∧
      parseLevel "fatal" = Level.fatal ∧ parseLevel s = Level.info := by
  simp only [List.mem_cons, List.mem_singleton, not_or] at h
  refine ⟨rfl, rfl, rfl, rfl, rfl, ?_⟩
  simp [parseLevel, h.1, h.2.1, h.2.2.1, h.2.2.2.1, h.2.2.2.2]

/-- C2 witness: instantiated at the unrecognized names `"Debug"` and the
behaviour on the literals. -/
theorem parseLevel_resolution_witness :
    parseLevel "debug" = Level.debug ∧ parseLevel "info" = Level.info ∧
      parseLevel "warn" = Level.warn ∧ parseLevel "error" = Level.error ∧
      parseLevel "fatal" = Level.fatal ∧ parseLevel "Debug" = Level.info :=
  parseLevel_resolution "Debug" (by decide)

/-- C3: initialization is once-guarded, so a second call with any level
name (and any file-open outcome) leaves the state exactly as the first
call alone produced it. -/
theorem LogInit_first_call_wins (o1 o2 : Bool) (a b : String) (s : State) :
    LogInit o2 b (LogInit o1 a s) = LogInit o1 a s := by
  unfold LogInit
  by_cases h : s.onceDone <;> simp [h]

/-- C4: on a state where no initialization has occurred, `GetLogger`
first performs default initialization at level `"info"` and returns the
resulting instance, and every severity-specific emit function is safe
(returns `Except.ok`, no fault), self-initializing with level `"info"`. -/
theorem GetLogger_lazy_default (openOk : Bool) (msg : String) (fs : List Field) (s : State)
    (h1 : s.logger = none) (h2 : s.onceDone = false) :
    (GetLogger openOk s).1 = some (buildLogger openOk "info") ∧
      (GetLogger openOk s).2.logger = some (buildLogger openOk "info") ∧
      (GetLogger openOk s).2.onceDone = true ∧
      Debug openOk msg fs s = Except.ok
        ((buildLogger openOk "info").emit
          { level := Level.debug, message := msg, fields := fs }, (GetLogger openOk s).2) ∧
      Info openOk msg fs s = Except.ok
        ((buildLogger openOk "info").emit
          { level := Level.info, message := msg, fields := fs }, (GetLogger openOk s).2) ∧
      Warn openOk msg fs s = Except.ok
        ((buildLogger openOk "info").emit
          { level := Level.warn, message := msg, fields := fs }, (GetLogger openOk s).2) ∧
      Error openOk msg fs s = Except.ok
        ((buildLogger openOk "info").emit
          { level := Level.error, message := msg, fields := fs }, (GetLogger openOk s).2) ∧
      Fatal openOk msg fs s = Except.ok
        ((buildLogger openOk "info").emit
          { level := Level.fatal, message := msg, fields := fs }, (GetLogger openOk s).2) ∧
      DPanic openOk msg fs s = Except.ok
        ((buildLogger openOk "info").emit
          { level := Level.dpanic, message := msg, fields := fs }, (GetLogger openOk s).2) ∧
      Panic openOk msg fs s = Except.ok
        ((buildLogger openOk "info").emit
          { level := Level.panic, message := msg, fields := fs }, (GetLogger openOk s).2) := by
  simp [Debug, Info, Warn, Error, Fatal, DPanic, Panic, emitVia, GetLogger,
    ensureLoggerInitialized, LogInit, h1, h2]

/-- C4 witness: instantiated on the fresh process state. -/
theorem GetLogger_lazy_default_witness :
    (GetLogger true initialState).1 = some (buildLogger true "info") ∧
      (GetLogger true initialState).2.logger = some (buildLogger true "info") ∧
      (GetLogger true initialState).2.onceDone = true ∧
      Debug true "m" [] initialState = Except.ok
        ((buildLogger true "info").emit
          { level := Level.debug, message := "m", fields := [] }, (GetLogger true initialState).2) ∧
      Info true "m" [] initialState = Except.ok
        ((buildLogger true "info").emit
          { level := Level.info, message := "m", fields := [] }, (GetLogger true initialState).2) ∧
      Warn true "m" [] initialState = Except.ok
        ((buildLogger true "info").emit
          { level := Level.warn, message := "m", fields := [] }, (GetLogger true initialState).2) ∧
      Error true "m" [] initialState = Except.ok
        ((buildLogger true "info").emit
          { level := Level.error, message := "m", fields := [] }, (GetLogger true initialState).2) ∧
      Fatal true "m" [] initialState = Except.ok
        ((buildLogger true "info").emit
          { level := Level.fatal, message := "m", fields := [] }, (GetLogger true initialState).2) ∧
      DPanic true "m" [] initialState = Except.ok
        ((buildLogger true "info").emit
          { level := Level.dpanic, message := "m", fields := [] }, (GetLogger true initialState).2) ∧
      Panic true "m" [] initialState = Except.ok
        ((buildLogger true "info").emit
          { level := Level.panic, message := "m", fields := [] }, (GetLogger true initialState).2) :=
  GetLogger_lazy_default true "m" [] initialState rfl rfl

/-- C5 counterexample: calling `LogWithContext` before any initialization
with the panic severity is not a fault — the switch has no panic branch,
so the nil instance is never dereferenced and the call is a silent no-op. -/
theorem LogWithContext_uninitialized_panic_no_fault :
    initialState.logger = none ∧
      LogWithContext initialState Level.panic "m" [] = Except.ok [] :=
  ⟨rfl, rfl⟩

/-- C5 (amended): `LogWithContext` reads the package-level instance
directly, without the lazy accessor. Before any initialization, a severity
matching one of its dispatch branches is a nil-instance fault, while a
severity outside the enumeration is a silent no-op; after any
initialization every call is safe. -/
theorem LogWithContext_direct_instance_access (lvl : Level) (msg : String)
    (fs : List Field) (s : State) :
    (s.logger = none → hasBranch lvl = true →
      LogWithContext s lvl msg fs = Except.error nilFault) ∧
      (s.logger = none → hasBranch lvl = false →
        LogWithContext s lvl msg fs = Except.ok []) ∧
      (∀ l, s.logger = some l →
        LogWithContext s lvl msg fs =
          Except.ok (if hasBranch lvl then
            l.emit { level := lvl, message := msg, fields := moduleField :: fs }
          else [])) := by
  refine ⟨fun h1 hb => ?_, fun h1 hb => ?_, fun l hl => ?_⟩
  · simp [LogWithContext, h1, hb]
  · simp [LogWithContext, hb]
  · by_cases hb : hasBranch lvl <;> simp [LogWithContext, hl, hb]

/-- C5 (amended) witness: a debug-severity call on the fresh process state
faults on the nil instance. -/
theorem LogWithContext_direct_instance_access_witness :
    LogWithContext initialState Level.debug "m" [] = Except.error nilFault :=
  (LogWithContext_direct_instance_access Level.debug "m" [] initialState).1 rfl rfl

/-- C6: on an initialized instance, for every severity the dispatch
supports and every caller-supplied field sequence, `LogWithContext` emits
records whose field list is the fixed hardcoded module field followed by
the caller's fields in their original order. -/
theorem LogWithContext_prepends_module_field (lvl : Level) (msg : String) (fs : List Field)
    (l : ZapLogger) (s : State) (hl : s.logger = some l) (hb : hasBranch lvl = true) :
    moduleField = { key := "module", value := FieldValue.str "product-service" } ∧
      ∃ ws, LogWithContext s lvl msg fs = Except.ok ws ∧
        ∀ w ∈ ws, w.2.fields = moduleField :: fs := by
  refine ⟨rfl, l.emit { level := lvl, message := msg, fields := moduleField :: fs }, ?_, ?_⟩
  · simp [LogWithContext, hl, hb]
  · intro w hw
    have := emit_record_eq l _ w hw
    simp [this]

/-- C6 witness: instantiated on an initialized state at info severity with
one caller field. -/
theorem LogWithContext_prepends_module_field_witness :
    moduleField = { key := "module", value := FieldValue.str "product-service" } ∧
      ∃ ws, LogWithContext (LogInit true "info" initialState)
          Level.info "m" [{ key := "k", value := FieldValue.str "v" }] = Except.ok ws ∧
        ∀ w ∈ ws, w.2.fields = moduleField :: [{ key := "k", value := FieldValue.str "v" }] :=
  LogWithContext_prepends_module_field Level.info "m"
    [{ key := "k", value := FieldValue.str "v" }] (buildLogger true "info")
    (LogInit true "info" initialState) rfl rfl

/-- C7: for every severity outside the branches enumerated in
`LogWithContext` — the panic level is such a severity, despite the facade
exposing a `Panic` emit function — the call is a silent no-op in every
state: no write on any sink and no error or fault. -/
theorem LogWithContext_unmatched_severity_noop (lvl : Level) (msg : String)
    (fs : List Field) (s : State) (h : hasBranch lvl = false) :
    hasBranch Level.panic = false ∧ LogWithContext s lvl msg fs = Except.ok [] :=
  ⟨rfl, by simp [LogWithContext, h]⟩

/-- C7 witness: instantiated at the panic severity on an initialized state. -/
theorem LogWithContext_unmatched_severity_noop_witness :
    hasBranch Level.panic = false ∧
      LogWithContext (LogInit true "warn" initialState) Level.panic "m" [] =
        Except.ok [] :=
  LogWithContext_unmatched_severity_noop Level.panic "m" []
    (LogInit true "warn" initialState) rfl

/-- C8: when opening the log file fails, initialization still completes
normally — it is a total function returning a state, never an error — the
file stream is redirected to standard output, and the failure is reported
only as a message on the unstructured side channel. -/
theorem LogInit_open_failure_falls_back (name : String) :
    (mustOpenFile logFilePath false).1 = Destination.stdout ∧
      (mustOpenFile logFilePath false).2 = ["Failed to open log file"] ∧
      (LogInit false name initialState).onceDone = true ∧
      (LogInit false name initialState).sideChannel = ["Failed to open log file"] ∧
      ∃ l, (LogInit false name initialState).logger = some l ∧
        l.fileSink.dest = Destination.stdout := by
  refine ⟨rfl, rfl, ?_, ?_, buildLogger false name, ?_, rfl⟩ <;>
    simp [LogInit, initialState, mustOpenFile]

/-- C10: the two hardcoded service identifiers disagree — the file sink
writes to the path `"./user-service.log"` while `LogWithContext` tags every
record with the fixed field `("module", "product-service")`; the file
name's service and the module tag's service are different constants. -/
theorem hardcoded_service_identifiers_disagree :
    logFilePath = "./user-service.log" ∧
      (buildLogger true "info").fileSink.dest = Destination.file "./user-service.log" ∧
      moduleField.key = "module" ∧
      moduleField.value = FieldValue.str "product-service" ∧
      ((logFilePath == "./" ++ "product-service" ++ ".log") = false) ∧
      (("user-service" == "product-service") = false) :=
  ⟨rfl, rfl, rfl, rfl, by decide, by decide⟩

end LoggerFacade
